import Mathlib

/-!
Verification of the cookie-policy layer of `@pidchashyi/next-cookies`
(`src/index.ts`).  The development shallowly embeds the policy engine of
`CookieClient`: the consent/GDPR gate, the checksum-backed backup/recovery
layer, the size-validation of writes, and the expiration bookkeeping.

Modelling conventions:
* The host framework's per-request cookie store (`next/headers.cookies()`)
  is a key-value map `String → Option StoredEntry`.  `cookieStore.set`
  stores a string together with the `maxAge`/`expires` options it was given;
  `cookieStore.delete` never throws in this embedding.
* Stored strings that the code produces with `JSON.stringify` and reads back
  with `JSON.parse` are kept in structured form (`StoredValue.backups`,
  `StoredValue.consent`); `serializeStored` recovers the exact JSON text the
  code would store, which is what the byte-size check measures.  A stored
  plain string (`StoredValue.str`) models a string that is not valid JSON,
  so `JSON.parse` on it throws (the empty string, which is falsy in the
  JavaScript guards, is special-cased where the source tests truthiness).
* `TextEncoder().encode` is the UTF-8 encoding, given explicitly as
  `utf8Bytes`/`strBytes`.
* `Date.now()` is an explicit `now : Nat` parameter (milliseconds).
* The `set ↔ backupCookie` recursion of the source is bounded by an explicit
  `fuel` parameter; exhausted fuel models the `RangeError` a genuinely
  unbounded recursion would raise (which the source catches).
* `Array.prototype.sort` is stable (ES2019); it is modelled by a stable
  insertion sort on the backup comparator `(a, b) => b.timestamp - a.timestamp`.
-/

/-- UTF-8 encoding of a single character (what `TextEncoder().encode` does,
scalar value by scalar value). -/
def utf8Bytes (c : Char) : List Nat :=
  let n := c.toNat
  if n < 0x80 then [n]
  else if n < 0x800 then [0xC0 + n / 0x40, 0x80 + n % 0x40]
  else if n < 0x10000 then
    [0xE0 + n / 0x1000, 0x80 + (n / 0x40) % 0x40, 0x80 + n % 0x40]
  else
    [0xF0 + n / 0x40000, 0x80 + (n / 0x1000) % 0x40, 0x80 + (n / 0x40) % 0x40, 0x80 + n % 0x40]

/-- UTF-8 byte sequence of a string (`TextEncoder().encode(s)`). -/
def strBytes (s : String) : List Nat := s.data.flatMap utf8Bytes

/-- Byte length of a string's UTF-8 encoding; `calculateCookieSize` in the
source is `byteLen (name ++ "=" ++ value)`. -/
def byteLen (s : String) : Nat := (strBytes s).length

/-- Arithmetic sum of the UTF-8 byte values of a string; the `reduce`
accumulator inside `generateChecksum`. -/
def utf8Sum (s : String) : Nat := (strBytes s).sum

/-- Source `generateChecksum`:
`Array.from(new Uint8Array(encode(value).reduce((acc, curr) => acc + curr, 0))).join("")`.
`new Uint8Array(n)` is a zero-filled array of length `n`, so `Array.from`
on it is `n` copies of the number `0` and joining them with `""` yields the
character `'0'` repeated `n` times, where `n` is the byte sum. -/
def generateChecksum (value : String) : String :=
  String.mk (List.replicate (utf8Sum value) '0')

/-- Maximum size of a cookie in bytes (`MAX_COOKIE_SIZE` in the source). -/
def MAX_COOKIE_SIZE : Nat := 4096

/-- JSON escaping of one character, as `JSON.stringify` performs inside
string literals. -/
def escChar (c : Char) : List Char :=
  if c = '"' ∨ c = '\\' then ['\\', c]
  else if c = '\x08' then ['\\', 'b']
  else if c = '\x09' then ['\\', 't']
  else if c = '\x0a' then ['\\', 'n']
  else if c = '\x0c' then ['\\', 'f']
  else if c = '\x0d' then ['\\', 'r']
  else if c.toNat < 0x20 then
    ['\\', 'u', '0', '0',
     (Nat.digitChar (c.toNat / 16)), (Nat.digitChar (c.toNat % 16))]
  else [c]

/-- JSON escaping of a whole string body. -/
def escString (s : String) : String := String.mk (s.data.flatMap escChar)

/-- JSON rendering of a boolean. -/
def boolJson (b : Bool) : String := if b then "true" else "false"

/-- One backup snapshot (`CookieBackup` in the source): the serialized cookie
value, the `Date.now()` timestamp of the write, and the checksum of the
value. -/
structure CookieBackup where
  value : String
  timestamp : Nat
  checksum : String
deriving DecidableEq, Repr

/-- Exact `JSON.stringify` text of one backup record (insertion order of the
object literal in `backupCookie`). -/
def backupJson (b : CookieBackup) : String :=
  "\x7b\"value\":\"" ++ escString b.value ++ "\",\"timestamp\":" ++ toString b.timestamp ++
    ",\"checksum\":\"" ++ escString b.checksum ++ "\"\x7d"

/-- Comma-separated body of the JSON array of backups. -/
def backupsJsonAux : List CookieBackup → String
  | [] => ""
  | [b] => backupJson b
  | b :: rest => backupJson b ++ "," ++ backupsJsonAux rest

/-- Exact `JSON.stringify` text of a backup history array. -/
def backupsJson (l : List CookieBackup) : String := "[" ++ backupsJsonAux l ++ "]"

/-- GDPR cookie categories (`CookieCategory` enum). -/
inductive CookieCategory where
  | essential
  | functional
  | analytics
  | marketing
  | preferences
deriving DecidableEq, Repr

/-- The string value of each enum member. -/
def categoryText : CookieCategory → String
  | CookieCategory.essential => "essential"
  | CookieCategory.functional => "functional"
  | CookieCategory.analytics => "analytics"
  | CookieCategory.marketing => "marketing"
  | CookieCategory.preferences => "preferences"

/-- A full consent record (`CookieConsent`). -/
structure CookieConsent where
  essential : Bool
  functional : Bool
  analytics : Bool
  marketing : Bool
  preferences : Bool
deriving DecidableEq, Repr

/-- Consent lookup `consent[category]`. -/
def consentFor (c : CookieConsent) : CookieCategory → Bool
  | CookieCategory.essential => c.essential
  | CookieCategory.functional => c.functional
  | CookieCategory.analytics => c.analytics
  | CookieCategory.marketing => c.marketing
  | CookieCategory.preferences => c.preferences

/-- Exact `JSON.stringify` text of a consent record (keys in the insertion
order of the `defaultConsent` literal in `getConsent`). -/
def consentJson (c : CookieConsent) : String :=
  "\x7b\"essential\":" ++ boolJson c.essential ++
    ",\"functional\":" ++ boolJson c.functional ++
    ",\"analytics\":" ++ boolJson c.analytics ++
    ",\"marketing\":" ++ boolJson c.marketing ++
    ",\"preferences\":" ++ boolJson c.preferences ++ "\x7d"

/-- A `Partial<CookieConsent>`: each field present or absent. -/
structure ConsentPatch where
  essential : Option Bool
  functional : Option Bool
  analytics : Option Bool
  marketing : Option Bool
  preferences : Option Bool
deriving DecidableEq, Repr

/-- The empty patch. -/
def emptyPatch : ConsentPatch := ⟨none, none, none, none, none⟩

/-- Object spread `{...current, ...patch}` on consent records. -/
def applyPatch (current : CookieConsent) (p : ConsentPatch) : CookieConsent :=
  ⟨p.essential.getD current.essential,
   p.functional.getD current.functional,
   p.analytics.getD current.analytics,
   p.marketing.getD current.marketing,
   p.preferences.getD current.preferences⟩

/-- Per-cookie GDPR metadata (`CookieConfigWithGDPR`). -/
structure CookieConfigWithGDPR where
  category : CookieCategory
  description : String
  duration : Option String
  provider : Option String
deriving DecidableEq, Repr

/-- The `backup` sub-object of a per-cookie backup configuration. -/
structure BackupSettings where
  critical : Option Bool
  backupCount : Option Nat
  validateChecksum : Option Bool
deriving DecidableEq, Repr

/-- Per-cookie backup configuration (`CookieConfigWithBackup`). -/
structure CookieConfigWithBackup where
  backup : Option BackupSettings
deriving DecidableEq, Repr

/-- A top-level entry of the configuration object passed to the constructor:
an allowed-values array (or `undefined`), an object-schema marker, or the
reserved `gdpr` / `backup` records. -/
inductive TopEntry where
  | values (allowed : Option (List String))
  | objectSchema
  | gdprEntry (m : List (String × CookieConfigWithGDPR))
  | backupEntry (m : List (String × CookieConfigWithBackup))
deriving DecidableEq, Repr

/-- First-match association-list lookup (JavaScript object property access on
objects whose keys are distinct). -/
def alookup {β : Type} : List (String × β) → String → Option β
  | [], _ => none
  | (k, v) :: rest, key => if key = k then some v else alookup rest key

/-- The client: the configuration object (own enumerable keys in insertion
order) together with the constructor options the claims depend on. -/
structure Client where
  entries : List (String × TopEntry)
  gdprDefaultConsent : ConsentPatch
  consentCookieName : Option String
  backupKeyPref : Option String
  defaultBackupCount : Option Nat
deriving Repr

/-- Source `this.gdprConfig = config.gdpr || {}`. -/
def gdprConfig (cl : Client) : List (String × CookieConfigWithGDPR) :=
  match alookup cl.entries "gdpr" with
  | some (TopEntry.gdprEntry m) => m
  | _ => []

/-- Source `this.backupConfig = config.backup || {}`. -/
def backupConfig (cl : Client) : List (String × CookieConfigWithBackup) :=
  match alookup cl.entries "backup" with
  | some (TopEntry.backupEntry m) => m
  | _ => []

/-- Source `this.consentKey`, defaulting to `"__cookie_consent"`. -/
def consentKey (cl : Client) : String :=
  cl.consentCookieName.getD "__cookie_consent"

/-- The backup key derivation string `this.backupPrefix`, defaulting to
`"__backup_"`. -/
def backupPref (cl : Client) : String :=
  cl.backupKeyPref.getD "__backup_"

/-- Source `gdprConfig[name]`. -/
def lookupGdpr (cl : Client) (name : String) : Option CookieConfigWithGDPR :=
  alookup (gdprConfig cl) name

/-- Source `backupConfig[name]`. -/
def lookupBackup (cl : Client) (name : String) : Option CookieConfigWithBackup :=
  alookup (backupConfig cl) name

/-- Source `getCookieCategory`: `gdprConfig[name]?.category || Essential`. -/
def getCookieCategory (cl : Client) (name : String) : CookieCategory :=
  match lookupGdpr cl name with
  | some g => g.category
  | none => CookieCategory.essential

/-- Truthiness of `config?.backup?.critical`. -/
def bcriticalFlag (c : CookieConfigWithBackup) : Bool :=
  match c.backup with
  | some b => b.critical.getD false
  | none => false

/-- Truthiness of `config.backup?.validateChecksum`. -/
def bvalidateFlag (c : CookieConfigWithBackup) : Bool :=
  match c.backup with
  | some b => b.validateChecksum.getD false
  | none => false

/-- Source `config.backup?.backupCount ?? options.backup?.defaultBackupCount ?? 3`. -/
def effBackupCount (cl : Client) (c : CookieConfigWithBackup) : Nat :=
  match c.backup.bind BackupSettings.backupCount with
  | some n => n
  | none => cl.defaultBackupCount.getD 3

/-- Whether the early-return guard `if (!config?.backup?.critical)` of
`backupCookie`/`recoverCookie` lets the cookie through. -/
def criticalFor (cl : Client) (name : String) : Bool :=
  match lookupBackup cl name with
  | some c => bcriticalFlag c
  | none => false

/-- What a cookie slot holds, in structured form.  `str` is a raw string
(not valid JSON unless empty); `backups` and `consent` stand for the
`JSON.stringify` of the corresponding data, recovered by `serializeStored`. -/
inductive StoredValue where
  | str (s : String)
  | backups (l : List CookieBackup)
  | consent (c : CookieConsent)
deriving DecidableEq, Repr

/-- The exact string text a `StoredValue` denotes in the real cookie store. -/
def serializeStored : StoredValue → String
  | StoredValue.str s => s
  | StoredValue.backups l => backupsJson l
  | StoredValue.consent c => consentJson c

/-- One slot of the host cookie store: the stored value plus the
`maxAge`/`expires` options the write carried. -/
structure StoredEntry where
  value : StoredValue
  maxAge : Option Int
  expires : Option Int
deriving DecidableEq, Repr

/-- The host framework's per-request cookie store. -/
abbrev Store := String → Option StoredEntry

/-- The empty store. -/
def emptyStore : Store := fun _ => none

/-- Models `cookieStore.set`. -/
def storePut (store : Store) (k : String) (e : StoredEntry) : Store :=
  fun k2 => if k2 = k then some e else store k2

/-- Models `cookieStore.delete`. -/
def storeDel (store : Store) (k : String) : Store :=
  fun k2 => if k2 = k then none else store k2

/-- Options forwarded to `cookieStore.set` (the fields the claims need). -/
structure SetOptions where
  maxAge : Option Int
  expires : Option Int
deriving DecidableEq, Repr

/-- Result of `set`. -/
structure SetResult where
  success : Bool
  message : String
deriving DecidableEq, Repr

/-- Result of `recoverCookie`. -/
structure RecoverResult where
  success : Bool
  message : String
  value : Option String
deriving DecidableEq, Repr

/-- Result of `delete`. -/
structure DeleteResult where
  success : Bool
  message : String
  deletedCookies : List String
deriving DecidableEq, Repr

/-- Result of `updateConsent`. -/
structure ConsentUpdateResult where
  success : Bool
  message : String
  cleanedCookies : List String
deriving DecidableEq, Repr

/-- The built-in default consent literal of `getConsent` overridden by
`options.gdpr?.defaultConsent`. -/
def defaultConsent (cl : Client) : CookieConsent :=
  applyPatch ⟨true, false, false, false, false⟩ cl.gdprDefaultConsent

/-- Source `getConsent`: read the consent cookie and `JSON.parse` it, falling back
to the default record when the cookie is absent, empty, or unparsable.
A stored backups array would parse to a JSON array whose category lookups
are all `undefined`, i.e. falsy. -/
def getConsent (cl : Client) (store : Store) : CookieConsent :=
  match store (consentKey cl) with
  | some e =>
    match e.value with
    | StoredValue.consent c => c
    | StoredValue.backups _ => ⟨false, false, false, false, false⟩
    | StoredValue.str _ => defaultConsent cl
  | none => defaultConsent cl

/-- Source `existingBackups.value ? JSON.parse(existingBackups.value) : []` in
`backupCookie`: `none` means the read/parse step threw (caught by the
enclosing `try`, aborting the backup), `some l` is the parsed history. -/
def readBackupList : Option StoredEntry → Option (List CookieBackup)
  | none => some []
  | some e =>
    match e.value with
    | StoredValue.backups l => some l
    | StoredValue.str s => if s = "" then some [] else none
    | StoredValue.consent _ => none

/-- Stable insertion of a backup into a timestamp-descending list: the
inserted element goes after every strictly newer element and before equal
or older ones, which is where a stable sort puts an element that occurs
later in the input. -/
def insertDesc (b : CookieBackup) : List CookieBackup → List CookieBackup
  | [] => [b]
  | a :: rest =>
    if a.timestamp > b.timestamp then a :: insertDesc b rest
    else b :: a :: rest

/-- Source `backups.sort((a, b) => b.timestamp - a.timestamp)`: the unique stable
timestamp-descending ordering, computed by stable insertion sort. -/
def sortBackupsDesc : List CookieBackup → List CookieBackup
  | [] => []
  | a :: rest => insertDesc a (sortBackupsDesc rest)

/-- Message constants (verbatim from the source; error messages of host
exceptions are modelled by fixed strings). -/
def setOkMsg (name : String) : String :=
  "Cookie \"" ++ name ++ "\" set successfully"

/-- Consent-gate failure message of `set`. -/
def noConsentMsg (name : String) (category : CookieCategory) : String :=
  "Cannot set cookie \"" ++ name ++ "\": no consent for " ++ categoryText category ++ " cookies"

/-- Source `COOKIE_ERRORS.SIZE_EXCEEDED(size)`. -/
def sizeExceededMsg (size : Nat) : String :=
  "Cookie size (" ++ toString size ++ " bytes) exceeds maximum allowed size of " ++
    toString MAX_COOKIE_SIZE ++ " bytes"

/-- Models the `RangeError` message of an unbounded `set ↔ backupCookie`
recursion (surfaced through the `catch` in `set`). -/
def stackOverflowMsg : String := "Maximum call stack size exceeded"

/-- Source `recoverCookie` message for a cookie that is not backup-critical. -/
def notConfiguredMsg (name : String) : String :=
  "Cookie \"" ++ name ++ "\" is not configured for backup"

/-- Source `recoverCookie` message when no backup history exists. -/
def noBackupsMsg (name : String) : String :=
  "No backups found for cookie \"" ++ name ++ "\""

/-- Source `recoverCookie` message for an empty backup history. -/
def noValidBackupsMsg (name : String) : String :=
  "No valid backups found for cookie \"" ++ name ++ "\""

/-- Source `recoverCookie` corruption message. -/
def corruptionMsg (name : String) : String :=
  "Backup corruption detected for cookie \"" ++ name ++ "\""

/-- Source `recoverCookie` success message. -/
def recoveredMsg (name : String) : String :=
  "Cookie \"" ++ name ++ "\" recovered successfully"

/-- Models the `error.message` of a `JSON.parse` failure inside
`recoverCookie`'s `try`. -/
def jsonErrorMsg : String := "Unexpected token in JSON"

/-- Models the `error.message` of the `TypeError` raised when the parsed
backup payload is not an array of records. -/
def typeErrorMsg : String := "Cannot read properties of undefined"

/-- Source `delete` summary message. -/
def deleteMsg (deleted total : Nat) : String :=
  "Deleted " ++ toString deleted ++ " of " ++ toString total ++ " cookies"

/-- Source `set` (lines 830-878) fused with the private `backupCookie`
(lines 702-741), which re-enters `set` to save the history.  The recursion
is bounded by `fuel`; the source's recursion is bounded in exactly the same
way by the JavaScript call stack.  Control flow, in source order: consent
gate, serialization, size validation, `cookieStore.set`, then the backup of
critical cookies (whose inner failures are swallowed). -/
def setRec (fuel : Nat) (cl : Client) (now : Nat) (name : String) (value : StoredValue)
    (opts : SetOptions) (store : Store) : SetResult × Store :=
  match fuel with
  | 0 => (⟨false, stackOverflowMsg⟩, store)
  | Nat.succ f =>
    let category := getCookieCategory cl name
    if category ≠ CookieCategory.essential ∧ consentFor (getConsent cl store) category = false then
      (⟨false, noConsentMsg name category⟩, store)
    else
      let sv := serializeStored value
      let size := byteLen (name ++ "=" ++ sv)
      if size > MAX_COOKIE_SIZE then
        (⟨false, sizeExceededMsg size⟩, store)
      else
        let store1 := storePut store name ⟨value, opts.maxAge, opts.expires⟩
        let store2 :=
          match lookupBackup cl name with
          | none => store1
          | some bcfg =>
            if bcriticalFlag bcfg then
              let cnt := effBackupCount cl bcfg
              let bkey := backupPref cl ++ name
              match readBackupList (store1 bkey) with
              | none => store1
              | some olds =>
                let nb : CookieBackup := ⟨sv, now, generateChecksum sv⟩
                let recent := (sortBackupsDesc (olds ++ [nb])).take cnt
                (setRec f cl now bkey (StoredValue.backups recent) ⟨none, none⟩ store1).2
            else store1
        (⟨true, setOkMsg name⟩, store2)

/-- The public `set` entry point. -/
def set : Nat → Client → Nat → String → StoredValue → SetOptions → Store → SetResult × Store :=
  setRec

/-- The private `backupCookie` (lines 702-741), standalone: identical to the
backup section of `setRec` but applicable to any store. -/
def backupCookie (fuel : Nat) (cl : Client) (now : Nat) (name : String) (sv : String)
    (store : Store) : Store :=
  match lookupBackup cl name with
  | none => store
  | some bcfg =>
    if bcriticalFlag bcfg then
      let cnt := effBackupCount cl bcfg
      let bkey := backupPref cl ++ name
      match readBackupList (store bkey) with
      | none => store
      | some olds =>
        let nb : CookieBackup := ⟨sv, now, generateChecksum sv⟩
        let recent := (sortBackupsDesc (olds ++ [nb])).take cnt
        (setRec fuel cl now bkey (StoredValue.backups recent) ⟨none, none⟩ store).2
    else store

/-- Everything `set` does after its consent gate: serialization, size
validation, the write, and the backup hook. -/
def setCore (fuel : Nat) (cl : Client) (now : Nat) (name : String) (value : StoredValue)
    (opts : SetOptions) (store : Store) : SetResult × Store :=
  let sv := serializeStored value
  let size := byteLen (name ++ "=" ++ sv)
  if size > MAX_COOKIE_SIZE then
    (⟨false, sizeExceededMsg size⟩, store)
  else
    let store1 := storePut store name ⟨value, opts.maxAge, opts.expires⟩
    (⟨true, setOkMsg name⟩, backupCookie fuel cl now name sv store1)

/-- Source `recoverCookie` (lines 749-819). -/
def recoverCookie (fuel : Nat) (cl : Client) (now : Nat) (name : String) (store : Store) :
    RecoverResult × Store :=
  match lookupBackup cl name with
  | none => (⟨false, notConfiguredMsg name, none⟩, store)
  | some bcfg =>
    if bcriticalFlag bcfg then
      let bkey := backupPref cl ++ name
      match store bkey with
      | none => (⟨false, noBackupsMsg name, none⟩, store)
      | some e =>
        match e.value with
        | StoredValue.str s =>
          if s = "" then (⟨false, noBackupsMsg name, none⟩, store)
          else (⟨false, jsonErrorMsg, none⟩, store)
        | StoredValue.consent _ => (⟨false, typeErrorMsg, none⟩, store)
        | StoredValue.backups [] => (⟨false, noValidBackupsMsg name, none⟩, store)
        | StoredValue.backups (latest :: _) =>
          if bvalidateFlag bcfg = true ∧ generateChecksum latest.value ≠ latest.checksum then
            (⟨false, corruptionMsg name, none⟩, store)
          else
            let restored := setRec fuel cl now name (StoredValue.str latest.value) ⟨none, none⟩ store
            (⟨true, recoveredMsg name, some latest.value⟩, restored.2)
    else (⟨false, notConfiguredMsg name, none⟩, store)

/-- Source `delete` (lines 963-998).  The host `cookieStore.delete` never throws in
this embedding, so the filter keeps every name. -/
def deleteCookies (names : List String) (store : Store) : DeleteResult × Store :=
  let deleted := names.filter (fun _ => true)
  (⟨deleted.length == names.length, deleteMsg deleted.length names.length, deleted⟩,
   names.foldl storeDel store)

/-- Source `updateConsent` (lines 601-646). -/
def updateConsent (fuel : Nat) (cl : Client) (now : Nat) (p : ConsentPatch) (store : Store) :
    ConsentUpdateResult × Store :=
  let currentConsent := getConsent cl store
  let newConsent := applyPatch currentConsent p
  let afterSet :=
    setRec fuel cl now (consentKey cl) (StoredValue.consent newConsent)
      ⟨some (365 * 24 * 60 * 60), none⟩ store
  let cookiesToRemove :=
    ((gdprConfig cl).filter (fun kv => ! consentFor newConsent kv.2.category)).map Prod.fst
  if cookiesToRemove.isEmpty then
    (⟨true, "Consent updated successfully", []⟩, afterSet.2)
  else
    let deleteResult := deleteCookies cookiesToRemove afterSet.2
    (⟨true, "Consent updated and non-consented cookies removed", deleteResult.1.deletedCookies⟩,
     deleteResult.2)

/-- Source `clearAll` (lines 1028-1039): delete every top-level configuration key. -/
def clearAll (cl : Client) (store : Store) : DeleteResult × Store :=
  deleteCookies (cl.entries.map Prod.fst) store

/-- Cookie metadata used by the expiration layer (`CookieMetadata`): times in
milliseconds since the epoch, `maxAge` in seconds. -/
structure CookieMetadata where
  name : String
  value : String
  expires : Option Int
  maxAge : Option Int
deriving DecidableEq, Repr

/-- Source `calculateExpirationDate` (lines 350-359): the `expires` date when
present, otherwise now plus `maxAge` seconds, otherwise `null`. -/
def calculateExpirationDate (now : Int) (cookie : CookieMetadata) : Option Int :=
  match cookie.expires with
  | some e => some e
  | none =>
    match cookie.maxAge with
    | some m => some (now + m * 1000)
    | none => none

/-- Source `getExpiredCookies` (lines 365-373): the cookies whose computed
expiration date exists and is strictly before now. -/
def getExpiredCookies (now : Int) (cookies : List CookieMetadata) : List CookieMetadata :=
  cookies.filter (fun cookie =>
    match calculateExpirationDate now cookie with
    | some e => decide (e < now)
    | none => false)

/-- Descending-by-timestamp sortedness of a backup history. -/
def DescSorted (l : List CookieBackup) : Prop :=
  l.Pairwise (fun x y => y.timestamp ≤ x.timestamp)

/-- A 40-character value whose byte sum (4880) makes its checksum string,
and hence the serialized backup snapshot, larger than `MAX_COOKIE_SIZE`. -/
def vZ40 : String := String.mk (List.replicate 40 'z')

/-- A value that on its own exceeds `MAX_COOKIE_SIZE`. -/
def bigZ : String := String.mk (List.replicate 4200 'z')

/-- Fixture for C5: a `functional`-category cookie `theme`. -/
def clW5 : Client :=
  ⟨[("theme", TopEntry.values (some ["light", "dark"])),
    ("gdpr", TopEntry.gdprEntry [("theme", ⟨CookieCategory.functional, "ui theme", none, none⟩)])],
   emptyPatch, none, none, none⟩

/-- Fixture for C5: a stored consent record granting `functional`. -/
def stFunctional : Store :=
  storePut emptyStore "__cookie_consent"
    ⟨StoredValue.consent ⟨true, true, false, false, false⟩, none, none⟩

/-- Fixture for C9: a client with a GDPR map that does not mention `sid`. -/
def clW9 : Client :=
  ⟨[("sid", TopEntry.values none),
    ("gdpr", TopEntry.gdprEntry [("track", ⟨CookieCategory.analytics, "t", none, none⟩)])],
   emptyPatch, none, none, none⟩

/-- Fixture for C9: a stored consent record denying every category. -/
def stDenyAll : Store :=
  storePut emptyStore "__cookie_consent"
    ⟨StoredValue.consent ⟨false, false, false, false, false⟩, none, none⟩

/-- Fixture for C10: a configuration whose top-level keys include the
reserved `gdpr` and `backup` entries. -/
def clW10 : Client :=
  ⟨[("a", TopEntry.values none),
    ("b", TopEntry.objectSchema),
    ("gdpr", TopEntry.gdprEntry [("a", ⟨CookieCategory.marketing, "m", none, none⟩)]),
    ("backup", TopEntry.backupEntry [("b", ⟨some ⟨some true, none, none⟩⟩)])],
   emptyPatch, none, none, none⟩

/-- Fixture for C8: two GDPR-tracked cookies, one `analytics`, one
`essential`. -/
def clW8 : Client :=
  ⟨[("track", TopEntry.values none), ("sid", TopEntry.values none),
    ("gdpr", TopEntry.gdprEntry
      [("track", ⟨CookieCategory.analytics, "t", none, none⟩),
       ("sid", ⟨CookieCategory.essential, "s", none, none⟩)])],
   emptyPatch, none, none, none⟩

/-- Fixture for C8: a patch granting functional consent only. -/
def pW8 : ConsentPatch := ⟨none, some true, none, none, none⟩

/-- Fixture for C7: an `analytics`-category cookie `a` with no consent. -/
def clC7 : Client :=
  ⟨[("a", TopEntry.values none),
    ("gdpr", TopEntry.gdprEntry [("a", ⟨CookieCategory.analytics, "d", none, none⟩)])],
   emptyPatch, none, none, none⟩

/-- Fixture for C4 and its witness: cookie `s` is backup-critical with all
other settings defaulted. -/
def clB : Client :=
  ⟨[("s", TopEntry.values none),
    ("backup", TopEntry.backupEntry [("s", ⟨some ⟨some true, none, none⟩⟩)])],
   emptyPatch, none, none, none⟩

/-- Fixture for C2's amended round trip: cookie `s` is backup-critical with
checksum validation enabled. -/
def clW2 : Client :=
  ⟨[("s", TopEntry.values none),
    ("backup", TopEntry.backupEntry [("s", ⟨some ⟨some true, none, some true⟩⟩)])],
   emptyPatch, none, none, none⟩

/-- Fixture for C2's counterexample: the derived backup key `__backup_s` is
itself GDPR-tracked as `analytics`, so the internal history save is
consent-blocked while the main write is essential. -/
def clX : Client :=
  ⟨[("s", TopEntry.values none),
    ("gdpr", TopEntry.gdprEntry [("__backup_s", ⟨CookieCategory.analytics, "d", none, none⟩)]),
    ("backup", TopEntry.backupEntry [("s", ⟨some ⟨some true, none, none⟩⟩)])],
   emptyPatch, none, none, none⟩

/-- Fixture for C3: backup-critical, checksum-validated cookie `x` whose
category is `analytics` (no consent stored). -/
def clC3 : Client :=
  ⟨[("x", TopEntry.values none),
    ("gdpr", TopEntry.gdprEntry [("x", ⟨CookieCategory.analytics, "t", none, none⟩)]),
    ("backup", TopEntry.backupEntry [("x", ⟨some ⟨some true, none, some true⟩⟩)])],
   emptyPatch, none, none, none⟩

/-- Fixture for C3: a store holding one intact snapshot of `x`. -/
def storeC3 : Store :=
  storePut emptyStore "__backup_x"
    ⟨StoredValue.backups [⟨"v", 5, generateChecksum "v"⟩], none, none⟩

/-- Fixture for C3's amended witness: same shape as `clC3` but with an
essential category, and a store with a corrupted snapshot. -/
def clW3 : Client :=
  ⟨[("x", TopEntry.values none),
    ("backup", TopEntry.backupEntry [("x", ⟨some ⟨some true, none, some true⟩⟩)])],
   emptyPatch, none, none, none⟩

/-- Fixture for C3's amended witness: one snapshot whose stored checksum does
not match its value. -/
def storeW3 : Store :=
  storePut emptyStore "__backup_x"
    ⟨StoredValue.backups [⟨"v", 5, "bad"⟩], none, none⟩

set_option maxRecDepth 40000

theorem setRec_succ (f : Nat) (cl : Client) (now : Nat) (n : String) (v : StoredValue)
    (o : SetOptions) (s : Store) :
    setRec (f + 1) cl now n v o s =
      (if getCookieCategory cl n ≠ CookieCategory.essential ∧
          consentFor (getConsent cl s) (getCookieCategory cl n) = false then
        (⟨false, noConsentMsg n (getCookieCategory cl n)⟩, s)
      else setCore f cl now n v o s) := rfl

theorem strBytes_append (s t : String) : strBytes (s ++ t) = strBytes s ++ strBytes t := by
  simp [strBytes, String.data_append]

theorem byteLen_append (s t : String) : byteLen (s ++ t) = byteLen s + byteLen t := by
  simp [byteLen, strBytes_append]

theorem utf8Bytes_ascii (c : Char) (h : c.toNat < 128) : utf8Bytes c = [c.toNat] := by
  simp [utf8Bytes, h]

theorem flatMap_replicate_one {α β : Type} (f : α → List β) (c : α) (b : β)
    (h : f c = [b]) : ∀ n, (List.replicate n c).flatMap f = List.replicate n b := by
  intro n
  induction n with
  | zero => simp
  | succ n ih => simp [List.replicate_succ, h, ih]

theorem byteLen_replicate_ascii (n : Nat) (c : Char) (h : c.toNat < 128) :
    byteLen (String.mk (List.replicate n c)) = n := by
  have hb : strBytes (String.mk (List.replicate n c)) = List.replicate n c.toNat :=
    flatMap_replicate_one utf8Bytes c c.toNat (utf8Bytes_ascii c h) n
  simp [byteLen, hb]

theorem utf8Sum_replicate_ascii (n : Nat) (c : Char) (h : c.toNat < 128) :
    utf8Sum (String.mk (List.replicate n c)) = n * c.toNat := by
  have hb : strBytes (String.mk (List.replicate n c)) = List.replicate n c.toNat :=
    flatMap_replicate_one utf8Bytes c c.toNat (utf8Bytes_ascii c h) n
  simp [utf8Sum, hb, List.sum_replicate, Nat.smul_one_eq_cast]

theorem escString_replicate_plain (n : Nat) (c : Char) (h : escChar c = [c]) :
    escString (String.mk (List.replicate n c)) = String.mk (List.replicate n c) := by
  simp [escString, flatMap_replicate_one escChar c c h n]

theorem mem_insertDesc (b y : CookieBackup) (l : List CookieBackup) :
    y ∈ insertDesc b l ↔ y = b ∨ y ∈ l := by
  induction l with
  | nil => simp [insertDesc]
  | cons a t ih =>
    by_cases hab : a.timestamp > b.timestamp
    · simp only [insertDesc, if_pos hab, List.mem_cons, ih]
      tauto
    · simp only [insertDesc, if_neg hab, List.mem_cons]

theorem insertDesc_sorted (b : CookieBackup) (l : List CookieBackup) (h : DescSorted l) :
    DescSorted (insertDesc b l) := by
  induction l with
  | nil => simp [insertDesc, DescSorted]
  | cons a t ih =>
    rcases List.pairwise_cons.mp h with ⟨ha, ht⟩
    by_cases hab : a.timestamp > b.timestamp
    · simp only [insertDesc, if_pos hab]
      refine List.pairwise_cons.mpr ⟨?_, ih ht⟩
      intro y hy
      rcases (mem_insertDesc b y t).mp hy with rfl | hyt
      · omega
      · exact ha y hyt
    · simp only [insertDesc, if_neg hab]
      refine List.pairwise_cons.mpr ⟨?_, h⟩
      intro y hy
      rcases List.mem_cons.mp hy with rfl | hyt
      · omega
      · have := ha y hyt
        omega

theorem sortBackupsDesc_sorted (l : List CookieBackup) : DescSorted (sortBackupsDesc l) := by
  induction l with
  | nil => simp [sortBackupsDesc, DescSorted]
  | cons a t ih => exact insertDesc_sorted a (sortBackupsDesc t) ih

theorem length_insertDesc (b : CookieBackup) (l : List CookieBackup) :
    (insertDesc b l).length = l.length + 1 := by
  induction l with
  | nil => rfl
  | cons a t ih =>
    by_cases hab : a.timestamp > b.timestamp
    · simp [insertDesc, if_pos hab, ih]
    · simp [insertDesc, if_neg hab]

theorem length_sortBackupsDesc (l : List CookieBackup) :
    (sortBackupsDesc l).length = l.length := by
  induction l with
  | nil => rfl
  | cons a t ih => simp [sortBackupsDesc, length_insertDesc, ih]

theorem DescSorted.take (l : List CookieBackup) (n : Nat) (h : DescSorted l) :
    DescSorted (l.take n) := by
  exact List.Pairwise.sublist (List.take_sublist n l) h

theorem sortBackupsDesc_append_max (l : List CookieBackup) (b : CookieBackup)
    (h : ∀ a ∈ l, a.timestamp < b.timestamp) :
    sortBackupsDesc (l ++ [b]) = b :: sortBackupsDesc l := by
  induction l with
  | nil => rfl
  | cons a t ih =>
    have hb : a.timestamp < b.timestamp := h a (by simp)
    have ht : ∀ x ∈ t, x.timestamp < b.timestamp := fun x hx => h x (by simp [hx])
    calc sortBackupsDesc ((a :: t) ++ [b]) = insertDesc a (sortBackupsDesc (t ++ [b])) := rfl
      _ = insertDesc a (b :: sortBackupsDesc t) := by rw [ih ht]
      _ = b :: insertDesc a (sortBackupsDesc t) := by
          simp [insertDesc, hb]
      _ = b :: sortBackupsDesc (a :: t) := rfl

theorem getConsent_storePut_ne (cl : Client) (store : Store) (k : String) (e : StoredEntry)
    (h : consentKey cl ≠ k) : getConsent cl (storePut store k e) = getConsent cl store := by
  simp [getConsent, storePut, h]

theorem length_append_ne (p s : String) (hp : p ≠ "") : p ++ s ≠ s := by
  intro h
  have hl : (p ++ s).length = p.length + s.length := by
    simp [String.length_append]
  have : p.length = 0 := by
    have := congrArg String.length h
    omega
  exact hp (String.ext (by
    have : p.data.length = 0 := this
    simpa [String.length] using List.length_eq_zero.mp this))

theorem str_len_pos (p : String) (hp : p ≠ "") : 0 < p.length := by
  rcases Nat.eq_zero_or_pos p.length with h0 | h
  · exact absurd (String.ext (List.length_eq_zero.mp h0)) hp
  · exact h

theorem setRec_frame (cl : Client) (hp : backupPref cl ≠ "") :
    ∀ (fuel now : Nat) (k : String) (v : StoredValue) (o : SetOptions) (store : Store)
      (k' : String), k'.length < k.length → (setRec fuel cl now k v o store).2 k' = store k' := by
  intro fuel
  induction fuel with
  | zero => intro now k v o store k' _; rfl
  | succ f ih =>
    intro now k v o store k' hlen
    have hne : k' ≠ k := fun h => by subst h; omega
    have hput : storePut store k ⟨v, o.maxAge, o.expires⟩ k' = store k' := by
      simp [storePut, hne]
    rw [setRec_succ]
    by_cases hgate : getCookieCategory cl k ≠ CookieCategory.essential ∧
        consentFor (getConsent cl store) (getCookieCategory cl k) = false
    · rw [if_pos hgate]
    · rw [if_neg hgate]
      show (setCore f cl now k v o store).2 k' = store k'
      by_cases hsz : byteLen (k ++ "=" ++ serializeStored v) > MAX_COOKIE_SIZE
      · simp only [setCore, if_pos hsz]
      · simp only [setCore, if_neg hsz]
        show backupCookie f cl now k (serializeStored v)
          (storePut store k ⟨v, o.maxAge, o.expires⟩) k' = store k'
        have hlonger : k'.length < (backupPref cl ++ k).length := by
          have h1 : 0 < (backupPref cl).length := str_len_pos _ hp
          have h2 : (backupPref cl ++ k).length = (backupPref cl).length + k.length := by
            simp [String.length_append]
          omega
        cases hlb : lookupBackup cl k with
        | none => simpa [backupCookie, hlb] using hput
        | some bcfg =>
          by_cases hflag : bcriticalFlag bcfg = true
          · cases hrb : readBackupList (storePut store k ⟨v, o.maxAge, o.expires⟩
                (backupPref cl ++ k)) with
            | none => simpa [backupCookie, hlb, hflag, hrb] using hput
            | some olds =>
              simp only [backupCookie, hlb, hflag, if_pos, hrb]
              rw [ih now (backupPref cl ++ k) _ _ _ k' hlonger]
              exact hput
          · have hflag' : bcriticalFlag bcfg = false := by
              cases hb : bcriticalFlag bcfg
              · rfl
              · exact absurd hb hflag
            simpa [backupCookie, hlb, hflag'] using hput

/-- C1: `generateChecksum` computes a non-cryptographic additive checksum:
the returned string is determined by, and determines, the arithmetic sum of
the UTF-8 byte values of the input (it is the unary numeral `'0' * sum`), so
two values with different byte sums always get different checksums. -/
theorem generateChecksum_byte_sum (v₁ v₂ : String) :
    generateChecksum v₁ = generateChecksum v₂ ↔ utf8Sum v₁ = utf8Sum v₂ := by
  constructor
  · intro h
    have hl := congrArg String.length h
    simpa [generateChecksum, String.length] using hl
  · intro h
    simp [generateChecksum, h]

/-- C5: for a cookie whose GDPR category is not `Essential`, `set` consults
the stored consent record first; if consent for the category is `false` it
fails with the no-consent message and leaves the store untouched (no write,
no backup), and if it is `true` the write proceeds past the gate (it behaves
exactly like the post-gate body `setCore`). -/
theorem set_consent_gate (fuel : Nat) (cl : Client) (now : Nat) (name : String)
    (value : StoredValue) (opts : SetOptions) (store : Store)
    (hcat : getCookieCategory cl name ≠ CookieCategory.essential) :
    (consentFor (getConsent cl store) (getCookieCategory cl name) = false →
      set (fuel + 1) cl now name value opts store =
        (⟨false, noConsentMsg name (getCookieCategory cl name)⟩, store))
    ∧ (consentFor (getConsent cl store) (getCookieCategory cl name) = true →
      set (fuel + 1) cl now name value opts store = setCore fuel cl now name value opts store) := by
  constructor
  · intro hc
    show setRec (fuel + 1) cl now name value opts store = _
    rw [setRec_succ, if_pos ⟨hcat, hc⟩]
  · intro hc
    show setRec (fuel + 1) cl now name value opts store = _
    rw [setRec_succ, if_neg]
    rintro ⟨-, hfalse⟩
    rw [hc] at hfalse
    cases hfalse

/-- C5 witness: the `functional` cookie `theme` is blocked on the default
(no-consent) store and goes through on a store whose consent record grants
`functional` consent. -/
theorem set_consent_gate_witness :
    set 1 clW5 0 "theme" (StoredValue.str "dark") ⟨none, none⟩ emptyStore =
      (⟨false, noConsentMsg "theme" (getCookieCategory clW5 "theme")⟩, emptyStore)
    ∧ set 1 clW5 0 "theme" (StoredValue.str "dark") ⟨none, none⟩ stFunctional =
      setCore 0 clW5 0 "theme" (StoredValue.str "dark") ⟨none, none⟩ stFunctional := by
  constructor
  · exact (set_consent_gate 0 clW5 0 "theme" (StoredValue.str "dark") ⟨none, none⟩ emptyStore
      (by decide)).1 (by decide)
  · exact (set_consent_gate 0 clW5 0 "theme" (StoredValue.str "dark") ⟨none, none⟩ stFunctional
      (by decide)).2 (by decide)

/-- C9: a cookie name with no entry in the GDPR configuration is categorised
`Essential` by default, so `set` skips the consent gate entirely — whatever
the stored consent record says, `set` behaves exactly like its post-gate
body `setCore` and can never fail with the no-consent message. -/
theorem unconfigured_cookie_bypasses_consent (cl : Client) (name : String)
    (h : lookupGdpr cl name = none) :
    getCookieCategory cl name = CookieCategory.essential
    ∧ ∀ (fuel now : Nat) (value : StoredValue) (opts : SetOptions) (store : Store),
        set (fuel + 1) cl now name value opts store =
          setCore fuel cl now name value opts store := by
  have hcat : getCookieCategory cl name = CookieCategory.essential := by
    simp [getCookieCategory, h]
  refine ⟨hcat, ?_⟩
  intro fuel now value opts store
  show setRec (fuel + 1) cl now name value opts store = _
  rw [setRec_succ, if_neg]
  rintro ⟨hne, -⟩
  exact hne hcat

/-- C9 witness: `sid` has no GDPR entry in `clW9`, so even on a store whose
consent record denies every category the write bypasses the gate. -/
theorem unconfigured_cookie_bypasses_consent_witness :
    getCookieCategory clW9 "sid" = CookieCategory.essential
    ∧ set 1 clW9 0 "sid" (StoredValue.str "abc") ⟨none, none⟩ stDenyAll =
        setCore 0 clW9 0 "sid" (StoredValue.str "abc") ⟨none, none⟩ stDenyAll := by
  have h := unconfigured_cookie_bypasses_consent clW9 "sid" (by decide)
  exact ⟨h.1, h.2 0 0 (StoredValue.str "abc") ⟨none, none⟩ stDenyAll⟩

theorem foldl_storeDel_notmem (names : List String) (store : Store) (k : String)
    (h : k ∉ names) : (names.foldl storeDel store) k = store k := by
  induction names generalizing store with
  | nil => rfl
  | cons a t ih =>
    have hka : k ≠ a := fun he => h (he ▸ List.mem_cons_self a t)
    have hkt : k ∉ t := fun ht => h (List.mem_cons_of_mem a ht)
    show (t.foldl storeDel (storeDel store a)) k = store k
    rw [ih (storeDel store a) hkt]
    simp [storeDel, hka]

theorem alookup_mem {β : Type} (l : List (String × β)) (key : String) (v : β)
    (h : alookup l key = some v) : key ∈ l.map Prod.fst := by
  induction l with
  | nil => simp [alookup] at h
  | cons p t ih =>
    obtain ⟨k, w⟩ := p
    by_cases hk : key = k
    · simp [hk]
    · rw [alookup, if_neg hk] at h
      simpa using Or.inr (ih h)

/-- C6: `getExpiredCookies` returns exactly the cookies whose computed
expiration date is strictly before now; the expiration date is the
`expires` attribute when present (taking precedence over `maxAge`),
otherwise now plus `maxAge` seconds, and a cookie with neither attribute is
never returned. -/
theorem getExpiredCookies_exact (now : Int) (l : List CookieMetadata) :
    (∀ c, c ∈ getExpiredCookies now l ↔
      c ∈ l ∧ ∃ e, calculateExpirationDate now c = some e ∧ e < now)
    ∧ (∀ c e, c.expires = some e → calculateExpirationDate now c = some e)
    ∧ (∀ c m, c.expires = none → c.maxAge = some m →
        calculateExpirationDate now c = some (now + m * 1000))
    ∧ (∀ c, c.expires = none → c.maxAge = none → c ∉ getExpiredCookies now l) := by
  have hmem : ∀ c, c ∈ getExpiredCookies now l ↔
      c ∈ l ∧ ∃ e, calculateExpirationDate now c = some e ∧ e < now := by
    intro c
    rw [getExpiredCookies, List.mem_filter]
    cases h : calculateExpirationDate now c with
    | none => simp [h]
    | some e => simp [h]
  refine ⟨hmem, ?_, ?_, ?_⟩
  · intro c e he
    simp [calculateExpirationDate, he]
  · intro c m he hm
    simp [calculateExpirationDate, he, hm]
  · intro c he hm hmem2
    rcases (hmem c).mp hmem2 with ⟨-, e, hcalc, -⟩
    rw [calculateExpirationDate, he, hm] at hcalc
    cases hcalc

/-- C6 witness: at time 10, a cookie with `expires = 5` is expired, a
cookie with `expires = 5` but `maxAge = 100` still uses `expires`, and a
cookie with neither attribute is not returned. -/
theorem getExpiredCookies_exact_witness :
    (⟨"a", "1", some 5, some 100⟩ : CookieMetadata) ∈
      getExpiredCookies 10 [⟨"a", "1", some 5, some 100⟩, ⟨"b", "2", none, none⟩]
    ∧ calculateExpirationDate 10 (⟨"a", "1", some 5, some 100⟩ : CookieMetadata) = some 5
    ∧ (⟨"b", "2", none, none⟩ : CookieMetadata) ∉
      getExpiredCookies 10 [⟨"a", "1", some 5, some 100⟩, ⟨"b", "2", none, none⟩] := by
  have h := getExpiredCookies_exact 10 [⟨"a", "1", some 5, some 100⟩, ⟨"b", "2", none, none⟩]
  refine ⟨(h.1 _).mpr ⟨by decide, 5, h.2.1 _ 5 rfl, by decide⟩, h.2.1 _ 5 rfl, ?_⟩
  exact h.2.2.2 _ rfl rfl

/-- C10: `clearAll` attempts to delete exactly the top-level keys of the
configuration object (including the reserved `gdpr` and `backup` entries
when present), succeeds exactly when every deletion succeeds (always, since
the host delete never throws here), and leaves every key that is not a
configuration key — backup histories, the consent cookie — untouched. -/
theorem clearAll_deletes_config_keys (cl : Client) (store : Store) :
    clearAll cl store =
      (⟨true, deleteMsg (cl.entries.map Prod.fst).length (cl.entries.map Prod.fst).length,
        cl.entries.map Prod.fst⟩,
       (cl.entries.map Prod.fst).foldl storeDel store)
    ∧ (∀ k, k ∉ cl.entries.map Prod.fst → (clearAll cl store).2 k = store k)
    ∧ (∀ m, alookup cl.entries "gdpr" = some m → "gdpr" ∈ cl.entries.map Prod.fst)
    ∧ (∀ m, alookup cl.entries "backup" = some m → "backup" ∈ cl.entries.map Prod.fst) := by
  refine ⟨?_, ?_, ?_, ?_⟩
  · show deleteCookies (cl.entries.map Prod.fst) store = _
    rw [deleteCookies]
    simp
  · intro k hk
    show (deleteCookies (cl.entries.map Prod.fst) store).2 k = store k
    rw [deleteCookies]
    exact foldl_storeDel_notmem _ store k hk
  · intro m hm
    exact alookup_mem cl.entries "gdpr" m hm
  · intro m hm
    exact alookup_mem cl.entries "backup" m hm

/-- C10 witness: on `clW10` (whose keys are `a`, `b`, `gdpr`, `backup`),
`clearAll` reports all four deletions, removes `a`, and leaves an unrelated
backup-history key alone. -/
theorem clearAll_deletes_config_keys_witness :
    (clearAll clW10 (storePut emptyStore "a" ⟨StoredValue.str "x", none, none⟩)).1 =
      ⟨true, deleteMsg 4 4, ["a", "b", "gdpr", "backup"]⟩
    ∧ (clearAll clW10 (storePut emptyStore "a" ⟨StoredValue.str "x", none, none⟩)).2
        "__backup_s" = none
    ∧ "gdpr" ∈ clW10.entries.map Prod.fst := by
  have h := clearAll_deletes_config_keys clW10
    (storePut emptyStore "a" ⟨StoredValue.str "x", none, none⟩)
  refine ⟨?_, ?_, h.2.2.1
    (TopEntry.gdprEntry [("a", ⟨CookieCategory.marketing, "m", none, none⟩)]) (by decide)⟩
  · rw [h.1]
    decide
  · rw [(h.2.1) "__backup_s" (by decide)]
    decide

theorem filter_true_eq {α : Type} (l : List α) : l.filter (fun _ => true) = l := by
  induction l with
  | nil => rfl
  | cons a t ih => simp [List.filter, ih]

theorem setCore_plain (fuel : Nat) (cl : Client) (now : Nat) (k : String) (v : StoredValue)
    (o : SetOptions) (store : Store)
    (hsz : byteLen (k ++ "=" ++ serializeStored v) ≤ MAX_COOKIE_SIZE)
    (hbk : criticalFor cl k = false) :
    setCore fuel cl now k v o store =
      (⟨true, setOkMsg k⟩, storePut store k ⟨v, o.maxAge, o.expires⟩) := by
  have hnot : ¬ byteLen (k ++ "=" ++ serializeStored v) > MAX_COOKIE_SIZE := by omega
  simp only [setCore, if_neg hnot]
  congr 1
  cases hlb : lookupBackup cl k with
  | none => simp [backupCookie, hlb]
  | some c =>
    simp only [criticalFor, hlb] at hbk
    simp [backupCookie, hlb, hbk]


theorem alookup_none {β : Type} (l : List (String × β)) (key : String)
    (h : alookup l key = none) : key ∉ l.map Prod.fst := by
  induction l with
  | nil => simp
  | cons p t ih =>
    obtain ⟨k, w⟩ := p
    by_cases hk : key = k
    · rw [alookup, if_pos hk] at h
      cases h
    · rw [alookup, if_neg hk] at h
      simpa [hk] using ih h

/-- C8: `updateConsent` merges the patch over the current consent record,
stores the merged record under the consent cookie with a one-year `maxAge`,
then deletes exactly the GDPR-configured cookies whose category maps to
`false` in the merged record, returning those names as `cleanedCookies`
(hypotheses: the consent cookie itself is neither GDPR-tracked nor
backup-critical, and the serialized record fits the size limit). -/
theorem updateConsent_merges_stores_cleans (fuel : Nat) (cl : Client) (now : Nat)
    (p : ConsentPatch) (store : Store)
    (hck : lookupGdpr cl (consentKey cl) = none)
    (hbk : criticalFor cl (consentKey cl) = false)
    (hsz : byteLen (consentKey cl ++ "=" ++
      consentJson (applyPatch (getConsent cl store) p)) ≤ MAX_COOKIE_SIZE) :
    (updateConsent (fuel + 1) cl now p store).1.success = true
    ∧ (updateConsent (fuel + 1) cl now p store).1.cleanedCookies =
        ((gdprConfig cl).filter
          (fun kv => ! consentFor (applyPatch (getConsent cl store) p) kv.2.category)).map
          Prod.fst
    ∧ (updateConsent (fuel + 1) cl now p store).2 =
        (((gdprConfig cl).filter
            (fun kv => ! consentFor (applyPatch (getConsent cl store) p) kv.2.category)).map
            Prod.fst).foldl storeDel
          (storePut store (consentKey cl)
            ⟨StoredValue.consent (applyPatch (getConsent cl store) p),
             some (365 * 24 * 60 * 60), none⟩)
    ∧ (updateConsent (fuel + 1) cl now p store).2 (consentKey cl) =
        some ⟨StoredValue.consent (applyPatch (getConsent cl store) p),
          some (365 * 24 * 60 * 60), none⟩ := by
  have hgate : getCookieCategory cl (consentKey cl) = CookieCategory.essential := by
    simp [getCookieCategory, hck]
  have hset : setRec (fuel + 1) cl now (consentKey cl)
      (StoredValue.consent (applyPatch (getConsent cl store) p))
      ⟨some (365 * 24 * 60 * 60), none⟩ store =
      (⟨true, setOkMsg (consentKey cl)⟩,
       storePut store (consentKey cl)
         ⟨StoredValue.consent (applyPatch (getConsent cl store) p),
          some (365 * 24 * 60 * 60), none⟩) := by
    rw [setRec_succ, if_neg (by rintro ⟨hne, -⟩; exact hne hgate)]
    exact setCore_plain fuel cl now (consentKey cl) _ _ store hsz hbk
  have hnotin : consentKey cl ∉
      ((gdprConfig cl).filter
        (fun kv => ! consentFor (applyPatch (getConsent cl store) p) kv.2.category)).map
        Prod.fst := by
    intro hmem
    obtain ⟨kv, hkv, hfst⟩ := List.mem_map.mp hmem
    have hin : kv ∈ gdprConfig cl := (List.mem_filter.mp hkv).1
    exact alookup_none (gdprConfig cl) (consentKey cl) hck
      (hfst ▸ List.mem_map_of_mem Prod.fst hin)
  have hmain : (updateConsent (fuel + 1) cl now p store) =
      (⟨true,
        if (((gdprConfig cl).filter
            (fun kv => ! consentFor (applyPatch (getConsent cl store) p) kv.2.category)).map
            Prod.fst).isEmpty
         then "Consent updated successfully"
         else "Consent updated and non-consented cookies removed",
        ((gdprConfig cl).filter
          (fun kv => ! consentFor (applyPatch (getConsent cl store) p) kv.2.category)).map
          Prod.fst⟩,
       (((gdprConfig cl).filter
           (fun kv => ! consentFor (applyPatch (getConsent cl store) p) kv.2.category)).map
           Prod.fst).foldl storeDel
         (storePut store (consentKey cl)
           ⟨StoredValue.consent (applyPatch (getConsent cl store) p),
            some (365 * 24 * 60 * 60), none⟩)) := by
    simp only [updateConsent, hset]
    cases hlist : ((gdprConfig cl).filter
        (fun kv => ! consentFor (applyPatch (getConsent cl store) p) kv.2.category)).map
        Prod.fst with
    | nil => simp [hlist]
    | cons a t => simp [hlist, deleteCookies, filter_true_eq]
  refine ⟨by rw [hmain], by rw [hmain], by rw [hmain], ?_⟩
  rw [hmain]
  show (_ : List String).foldl storeDel _ (consentKey cl) = _
  rw [foldl_storeDel_notmem _ _ _ hnotin]
  simp [storePut]

/-- C8 witness: on `clW8` with no stored consent, patching `functional := true`
yields the merged record `⟨true, true, false, false, false⟩`, stores it under
`__cookie_consent` with a one-year `maxAge`, and deletes exactly the
`analytics` cookie `track`. -/
theorem updateConsent_merges_stores_cleans_witness :
    (updateConsent 1 clW8 0 pW8 emptyStore).1.success = true
    ∧ (updateConsent 1 clW8 0 pW8 emptyStore).1.cleanedCookies = ["track"]
    ∧ (updateConsent 1 clW8 0 pW8 emptyStore).2 "__cookie_consent" =
        some ⟨StoredValue.consent ⟨true, true, false, false, false⟩, some 31536000, none⟩
    ∧ (updateConsent 1 clW8 0 pW8 emptyStore).2 "track" = none := by
  have h := updateConsent_merges_stores_cleans 0 clW8 0 pW8 emptyStore (by decide) (by decide)
    (by decide)
  refine ⟨h.1, ?_, ?_, ?_⟩
  · rw [h.2.1]
    decide
  · have h4 := h.2.2.2
    rw [show consentKey clW8 = "__cookie_consent" from rfl] at h4
    rw [h4]
    decide
  · rw [h.2.2.1]
    decide

/-- C7 (amended): provided the consent gate passes (essential category, or
consent granted), `set` fails with the size-exceeded message and writes
nothing when the UTF-8 byte length of `name ++ "=" ++ serialized` exceeds
4096, and passes the size check (the write succeeds) when it is at most
4096.  Without the proviso the claim is false: a consent-blocked cookie
returns the no-consent message even for oversized values
(`set_size_message_preempted`). -/
theorem set_size_check (fuel : Nat) (cl : Client) (now : Nat) (name : String)
    (value : StoredValue) (opts : SetOptions) (store : Store)
    (hgate : getCookieCategory cl name = CookieCategory.essential ∨
      consentFor (getConsent cl store) (getCookieCategory cl name) = true) :
    (byteLen (name ++ "=" ++ serializeStored value) > MAX_COOKIE_SIZE →
      set (fuel + 1) cl now name value opts store =
        (⟨false, sizeExceededMsg (byteLen (name ++ "=" ++ serializeStored value))⟩, store))
    ∧ (byteLen (name ++ "=" ++ serializeStored value) ≤ MAX_COOKIE_SIZE →
      (set (fuel + 1) cl now name value opts store).1 = ⟨true, setOkMsg name⟩) := by
  have hndeny : ¬ (getCookieCategory cl name ≠ CookieCategory.essential ∧
      consentFor (getConsent cl store) (getCookieCategory cl name) = false) := by
    rcases hgate with h | h
    · rintro ⟨hne, -⟩
      exact hne h
    · rintro ⟨-, hf⟩
      rw [h] at hf
      cases hf
  constructor
  · intro hsz
    show setRec (fuel + 1) cl now name value opts store = _
    rw [setRec_succ, if_neg hndeny]
    simp only [setCore, if_pos hsz]
  · intro hsz
    have hnot : ¬ byteLen (name ++ "=" ++ serializeStored value) > MAX_COOKIE_SIZE := by omega
    show (setRec (fuel + 1) cl now name value opts store).1 = _
    rw [setRec_succ, if_neg hndeny]
    simp only [setCore, if_neg hnot]

/-- C7 witness: for the essential cookie `s` of `clB`, a 4200-byte value is
rejected with the size message and the store is untouched, while a short
value passes the size check. -/
theorem set_size_check_witness :
    byteLen ("s" ++ "=" ++ serializeStored (StoredValue.str bigZ)) > MAX_COOKIE_SIZE
    ∧ set 1 clB 0 "s" (StoredValue.str bigZ) ⟨none, none⟩ emptyStore =
        (⟨false, sizeExceededMsg (byteLen ("s" ++ "=" ++ serializeStored (StoredValue.str bigZ)))⟩,
         emptyStore)
    ∧ (set 1 clB 0 "s" (StoredValue.str "ok") ⟨none, none⟩ emptyStore).1 = ⟨true, setOkMsg "s"⟩ := by
  have h4200 : byteLen bigZ = 4200 := by
    rw [bigZ]
    exact byteLen_replicate_ascii 4200 'z' (by decide)
  have hbig : byteLen ("s" ++ "=" ++ serializeStored (StoredValue.str bigZ)) = 4202 := by
    show byteLen ("s" ++ "=" ++ bigZ) = 4202
    simp [byteLen_append, h4200]
    decide
  refine ⟨by rw [hbig]; decide, ?_, ?_⟩
  · exact (set_size_check 0 clB 0 "s" (StoredValue.str bigZ) ⟨none, none⟩ emptyStore
      (Or.inl (by decide))).1 (by rw [hbig]; decide)
  · exact (set_size_check 0 clB 0 "s" (StoredValue.str "ok") ⟨none, none⟩ emptyStore
      (Or.inl (by decide))).2 (by decide)

/-- C7 counterexample: for the consent-blocked `analytics` cookie `a` of
`clC7` and an oversized value, `set` returns `success:false` with the
no-consent message — not the size-exceeded message the claim requires —
while still writing nothing. -/
theorem set_size_message_preempted :
    byteLen ("a" ++ "=" ++ serializeStored (StoredValue.str bigZ)) > MAX_COOKIE_SIZE
    ∧ (set 1 clC7 0 "a" (StoredValue.str bigZ) ⟨none, none⟩ emptyStore).1 =
        ⟨false, noConsentMsg "a" CookieCategory.analytics⟩
    ∧ (set 1 clC7 0 "a" (StoredValue.str bigZ) ⟨none, none⟩ emptyStore).2 "a" = none
    ∧ noConsentMsg "a" CookieCategory.analytics ≠
        sizeExceededMsg (byteLen ("a" ++ "=" ++ serializeStored (StoredValue.str bigZ))) := by
  have h4200 : byteLen bigZ = 4200 := by
    rw [bigZ]
    exact byteLen_replicate_ascii 4200 'z' (by decide)
  have hbig : byteLen ("a" ++ "=" ++ serializeStored (StoredValue.str bigZ)) = 4202 := by
    show byteLen ("a" ++ "=" ++ bigZ) = 4202
    simp [byteLen_append, h4200]
    decide
  have hdeny : getCookieCategory clC7 "a" ≠ CookieCategory.essential ∧
      consentFor (getConsent clC7 emptyStore) (getCookieCategory clC7 "a") = false := by
    constructor
    · decide
    · decide
  have hrun : set 1 clC7 0 "a" (StoredValue.str bigZ) ⟨none, none⟩ emptyStore =
      (⟨false, noConsentMsg "a" (getCookieCategory clC7 "a")⟩, emptyStore) := by
    show setRec 1 clC7 0 "a" (StoredValue.str bigZ) ⟨none, none⟩ emptyStore = _
    rw [show (1 : Nat) = 0 + 1 from rfl, setRec_succ, if_pos hdeny]
  refine ⟨by rw [hbig]; decide, ?_, ?_, ?_⟩
  · rw [hrun]
    decide
  · rw [hrun]
    decide
  · rw [hbig]
    decide

/-- C4 (amended): when the history save goes through — the backup key passes
the consent gate, the serialized history fits the 4096-byte limit, and the
backup key is not itself backup-critical — one run of `backupCookie` for a
critical cookie stores, under `backupPrefix + name`, exactly the old history
plus a snapshot carrying the written value, the current timestamp and its
checksum, sorted by timestamp in descending order and truncated to at most
`backupCount` entries (3 when neither the cookie nor the client configures a
count).  Without the save-success proviso the claim is false: the inner
`set` failure is swallowed and nothing is appended
(`backupCookie_silently_drops`). -/
theorem backupCookie_appends (fuel : Nat) (cl : Client) (now : Nat) (name : String)
    (sv : String) (store : Store) (bcfg : CookieConfigWithBackup)
    (hb : lookupBackup cl name = some bcfg)
    (hcrit : bcriticalFlag bcfg = true)
    (olds : List CookieBackup)
    (hist : readBackupList (store (backupPref cl ++ name)) = some olds)
    (hgate : getCookieCategory cl (backupPref cl ++ name) = CookieCategory.essential)
    (hsz : byteLen ((backupPref cl ++ name) ++ "=" ++
      backupsJson ((sortBackupsDesc (olds ++ [⟨sv, now, generateChecksum sv⟩])).take
        (effBackupCount cl bcfg))) ≤ MAX_COOKIE_SIZE)
    (hnorec : criticalFor cl (backupPref cl ++ name) = false) :
    backupCookie (fuel + 1) cl now name sv store =
      storePut store (backupPref cl ++ name)
        ⟨StoredValue.backups ((sortBackupsDesc (olds ++ [⟨sv, now, generateChecksum sv⟩])).take
          (effBackupCount cl bcfg)), none, none⟩
    ∧ ((sortBackupsDesc (olds ++ [⟨sv, now, generateChecksum sv⟩])).take
        (effBackupCount cl bcfg)).length ≤ effBackupCount cl bcfg
    ∧ DescSorted ((sortBackupsDesc (olds ++ [⟨sv, now, generateChecksum sv⟩])).take
        (effBackupCount cl bcfg))
    ∧ (bcfg.backup.bind BackupSettings.backupCount = none → cl.defaultBackupCount = none →
        effBackupCount cl bcfg = 3) := by
  refine ⟨?_, ?_, ?_, ?_⟩
  · simp only [backupCookie, hb, hcrit, if_true, hist]
    rw [setRec_succ, if_neg (by rintro ⟨hne, -⟩; exact hne hgate)]
    rw [setCore_plain (fuel) cl now (backupPref cl ++ name) _ _ store (by exact hsz) hnorec]
  · simp [List.length_take]
  · exact DescSorted.take _ _ (sortBackupsDesc_sorted _)
  · intro h1 h2
    simp [effBackupCount, h1, h2]

/-- C4 witness: backing up `s` of `clB` with value `"v"` at time 7 over an
empty store leaves exactly the singleton history under `__backup_s`. -/
theorem backupCookie_appends_witness :
    backupCookie 1 clB 7 "s" "v" emptyStore "__backup_s" =
      some ⟨StoredValue.backups [⟨"v", 7, generateChecksum "v"⟩], none, none⟩ := by
  have h := backupCookie_appends 0 clB 7 "s" "v" emptyStore ⟨some ⟨some true, none, none⟩⟩
    (by decide) (by decide) [] (by decide) (by decide) (by decide) (by decide)
  rw [h.1]
  decide

/-- C4 counterexample: for the critical cookie `s` of `clB` and the
40-character value `vZ40`, whose checksum string alone is 4880 bytes,
`backupCookie` runs but appends nothing — the inner save fails the size
check, the failure is swallowed, and the history stays empty — refuting
"each run appends one snapshot to the history". -/
theorem backupCookie_silently_drops :
    criticalFor clB "s" = true
    ∧ backupCookie 1 clB 100 "s" vZ40 emptyStore "__backup_s" = none := by
  have hchk : generateChecksum vZ40 = String.mk (List.replicate 4880 '0') := by
    have hsum : utf8Sum vZ40 = 4880 := by
      rw [vZ40, utf8Sum_replicate_ascii 40 'z' (by decide)]
      decide
    rw [generateChecksum, hsum]
  have hlenchk : byteLen (escString (generateChecksum vZ40)) = 4880 := by
    rw [hchk, escString_replicate_plain 4880 '0' (by decide),
      byteLen_replicate_ascii 4880 '0' (by decide)]
  have hsz : byteLen ("__backup_s" ++ "=" ++
      backupsJson [⟨vZ40, 100, generateChecksum vZ40⟩]) > MAX_COOKIE_SIZE := by
    simp only [backupsJson, backupsJsonAux, backupJson, byteLen_append, MAX_COOKIE_SIZE]
    simp only [hlenchk]
    omega
  have hred : backupCookie 1 clB 100 "s" vZ40 emptyStore =
      (setRec 1 clB 100 "__backup_s"
        (StoredValue.backups [⟨vZ40, 100, generateChecksum vZ40⟩]) ⟨none, none⟩ emptyStore).2 :=
    rfl
  have hgate : ¬ (getCookieCategory clB "__backup_s" ≠ CookieCategory.essential ∧
      consentFor (getConsent clB emptyStore) (getCookieCategory clB "__backup_s") = false) := by
    rintro ⟨hne, -⟩
    exact hne (by decide)
  refine ⟨by decide, ?_⟩
  rw [hred, show (1 : Nat) = 0 + 1 from rfl, setRec_succ, if_neg hgate]
  have hsz' : byteLen ("__backup_s" ++ "=" ++
      serializeStored (StoredValue.backups [⟨vZ40, 100, generateChecksum vZ40⟩])) >
      MAX_COOKIE_SIZE := hsz
  simp only [setCore, if_pos hsz']
  rfl

/-- C3 (amended): for a backup-critical cookie with `validateChecksum`,
`recoverCookie` recomputes the checksum of the first stored snapshot; on a
mismatch it returns `success:false` with the corruption message, `value
null`, and writes nothing.  When the checksums match (or `validateChecksum`
is not set) it returns `success:true` with the snapshot's value, and the
value is restored as the live cookie provided the rewriting `set` itself
passes the consent gate and the size check (the source ignores the result
of that `set`, so without the proviso the restore can silently fail —
`recover_success_without_restore`). -/
theorem recoverCookie_checksum (fuel : Nat) (cl : Client) (now : Nat) (name : String)
    (store : Store) (bcfg : CookieConfigWithBackup) (latest : CookieBackup)
    (rest : List CookieBackup) (ma ex : Option Int)
    (hb : lookupBackup cl name = some bcfg)
    (hcrit : bcriticalFlag bcfg = true)
    (hs : store (backupPref cl ++ name) =
      some ⟨StoredValue.backups (latest :: rest), ma, ex⟩) :
    (bvalidateFlag bcfg = true → generateChecksum latest.value ≠ latest.checksum →
      recoverCookie fuel cl now name store = (⟨false, corruptionMsg name, none⟩, store))
    ∧ (bvalidateFlag bcfg = false ∨ generateChecksum latest.value = latest.checksum →
      (recoverCookie fuel cl now name store).1 = ⟨true, recoveredMsg name, some latest.value⟩)
    ∧ (bvalidateFlag bcfg = false ∨ generateChecksum latest.value = latest.checksum →
       (getCookieCategory cl name = CookieCategory.essential ∨
         consentFor (getConsent cl store) (getCookieCategory cl name) = true) →
       byteLen (name ++ "=" ++ latest.value) ≤ MAX_COOKIE_SIZE →
       backupPref cl ≠ "" →
       (recoverCookie (fuel + 1) cl now name store).2 name =
         some ⟨StoredValue.str latest.value, none, none⟩) := by
  have hstep : ∀ f : Nat, recoverCookie f cl now name store =
      (if bvalidateFlag bcfg = true ∧ generateChecksum latest.value ≠ latest.checksum then
        (⟨false, corruptionMsg name, none⟩, store)
      else
        (⟨true, recoveredMsg name, some latest.value⟩,
         (setRec f cl now name (StoredValue.str latest.value) ⟨none, none⟩ store).2)) := by
    intro f
    simp only [recoverCookie, hb, hcrit, if_true, hs]
  have hnomis : bvalidateFlag bcfg = false ∨ generateChecksum latest.value = latest.checksum →
      ¬ (bvalidateFlag bcfg = true ∧ generateChecksum latest.value ≠ latest.checksum) := by
    rintro (hok | hok) ⟨hv, hne⟩
    · rw [hok] at hv
      cases hv
    · exact hne hok
  refine ⟨?_, ?_, ?_⟩
  · intro hv hne
    rw [hstep fuel, if_pos ⟨hv, hne⟩]
  · intro hok
    rw [hstep fuel, if_neg (hnomis hok)]
  · intro hok hgate hszv hpne
    have hbne : backupPref cl ++ name ≠ name := length_append_ne _ _ hpne
    have hlen : name.length < (backupPref cl ++ name).length := by
      have h1 : 0 < (backupPref cl).length := str_len_pos _ hpne
      have h2 : (backupPref cl ++ name).length = (backupPref cl).length + name.length := by
        simp [String.length_append]
      omega
    rw [hstep (fuel + 1), if_neg (hnomis hok)]
    show (setRec (fuel + 1) cl now name (StoredValue.str latest.value) ⟨none, none⟩ store).2 name
      = _
    rw [setRec_succ, if_neg (by
      rintro ⟨hne, hf⟩
      rcases hgate with h | h
      · exact hne h
      · rw [h] at hf; cases hf)]
    have hnot : ¬ byteLen (name ++ "=" ++
        serializeStored (StoredValue.str latest.value)) > MAX_COOKIE_SIZE := by
      show ¬ byteLen (name ++ "=" ++ latest.value) > MAX_COOKIE_SIZE
      omega
    simp only [setCore, if_neg hnot]
    show backupCookie fuel cl now name (serializeStored (StoredValue.str latest.value))
      (storePut store name ⟨StoredValue.str latest.value, none, none⟩) name = _
    have hkey : storePut store name ⟨StoredValue.str latest.value, none, none⟩
        (backupPref cl ++ name) = some ⟨StoredValue.backups (latest :: rest), ma, ex⟩ := by
      rw [storePut, if_neg hbne]
      exact hs
    simp only [backupCookie, hb, hcrit, if_true, hkey, readBackupList]
    rw [setRec_frame cl hpne fuel now (backupPref cl ++ name) _ _ _ name hlen]
    simp [storePut]

/-- C3 witness: on `clW3`, a snapshot whose stored checksum `"bad"` does not
match its value is rejected with the corruption message and no write, while
an intact snapshot of `"v"` is rewritten as the live value of `x`. -/
theorem recoverCookie_checksum_witness :
    recoverCookie 2 clW3 9 "x" storeW3 = (⟨false, corruptionMsg "x", none⟩, storeW3)
    ∧ (recoverCookie 2 clW3 9 "x"
        (storePut emptyStore "__backup_x"
          ⟨StoredValue.backups [⟨"v", 5, generateChecksum "v"⟩], none, none⟩)).2 "x" =
      some ⟨StoredValue.str "v", none, none⟩ := by
  have h1 := recoverCookie_checksum 2 clW3 9 "x" storeW3 ⟨some ⟨some true, none, some true⟩⟩
    ⟨"v", 5, "bad"⟩ [] none none (by decide) (by decide) (by decide)
  have h2 := recoverCookie_checksum 1 clW3 9 "x"
    (storePut emptyStore "__backup_x"
      ⟨StoredValue.backups [⟨"v", 5, generateChecksum "v"⟩], none, none⟩)
    ⟨some ⟨some true, none, some true⟩⟩ ⟨"v", 5, generateChecksum "v"⟩ [] none none
    (by decide) (by decide) (by decide)
  exact ⟨h1.1 (by decide) (by decide),
    h2.2.2 (Or.inr rfl) (Or.inl (by decide)) (by decide) (by decide)⟩

/-- C3 counterexample: on `clC3` the cookie `x` is critical with
`validateChecksum`, the stored snapshot is intact (checksums match), yet the
claimed "restored as the live cookie" fails: `recoverCookie` reports
`success:true` with the snapshot value while the live slot `x` stays unset,
because its internal `set` is consent-blocked and its result ignored. -/
theorem recover_success_without_restore :
    bvalidateFlag ⟨some ⟨some true, none, some true⟩⟩ = true
    ∧ generateChecksum "v" = (⟨"v", 5, generateChecksum "v"⟩ : CookieBackup).checksum
    ∧ (recoverCookie 2 clC3 9 "x" storeC3).1 = ⟨true, recoveredMsg "x", some "v"⟩
    ∧ (recoverCookie 2 clC3 9 "x" storeC3).2 "x" = none := by
  refine ⟨by decide, rfl, by decide, by decide⟩

theorem recover_step (f : Nat) (cl : Client) (now : Nat) (name : String) (store : Store)
    (bcfg : CookieConfigWithBackup) (latest : CookieBackup) (rest : List CookieBackup)
    (ma ex : Option Int)
    (hb : lookupBackup cl name = some bcfg) (hcrit : bcriticalFlag bcfg = true)
    (hs : store (backupPref cl ++ name) =
      some ⟨StoredValue.backups (latest :: rest), ma, ex⟩) :
    recoverCookie f cl now name store =
      (if bvalidateFlag bcfg = true ∧ generateChecksum latest.value ≠ latest.checksum then
        (⟨false, corruptionMsg name, none⟩, store)
      else (⟨true, recoveredMsg name, some latest.value⟩,
        (setRec f cl now name (StoredValue.str latest.value) ⟨none, none⟩ store).2)) := by
  simp only [recoverCookie, hb, hcrit, if_true, hs]

/-- C2 (amended): for a backup-critical cookie (with or without
`validateChecksum`), after a successful `set` of value `v` whose internal
history save also goes through (the serialized history fits the size limit,
the backup key passes the consent gate and is not itself critical) and whose
timestamp is strictly newer than every stored snapshot, the snapshot at the
head of the stored history is the one the `set` just appended, and a
subsequent `recoverCookie` returns `success:true` with value `v` and
rewrites `v` as the live cookie value.  Without the save proviso the claim
is false (`roundtrip_fails_when_backup_blocked`). -/
theorem set_then_recover_roundtrip
    (cl : Client) (store : Store) (name v : String) (now1 now2 : Nat)
    (bcfg : CookieConfigWithBackup)
    (hb : lookupBackup cl name = some bcfg)
    (hcrit : bcriticalFlag bcfg = true)
    (olds : List CookieBackup)
    (hist : readBackupList (store (backupPref cl ++ name)) = some olds)
    (hfresh : ∀ a ∈ olds, a.timestamp < now1)
    (hcnt : 1 ≤ effBackupCount cl bcfg)
    (hgate1 : getCookieCategory cl name = CookieCategory.essential ∨
      consentFor (getConsent cl store) (getCookieCategory cl name) = true)
    (hsz1 : byteLen (name ++ "=" ++ v) ≤ MAX_COOKIE_SIZE)
    (hgate2 : getCookieCategory cl (backupPref cl ++ name) = CookieCategory.essential)
    (hsz2 : byteLen ((backupPref cl ++ name) ++ "=" ++
        backupsJson ((⟨v, now1, generateChecksum v⟩ :: sortBackupsDesc olds).take
          (effBackupCount cl bcfg))) ≤ MAX_COOKIE_SIZE)
    (hnorec : criticalFor cl (backupPref cl ++ name) = false)
    (hpne : backupPref cl ≠ "")
    (hck1 : consentKey cl ≠ name)
    (hck2 : consentKey cl ≠ backupPref cl ++ name) :
    (set 2 cl now1 name (StoredValue.str v) ⟨none, none⟩ store).1 = ⟨true, setOkMsg name⟩
    ∧ (set 2 cl now1 name (StoredValue.str v) ⟨none, none⟩ store).2 (backupPref cl ++ name) =
        some ⟨StoredValue.backups ((⟨v, now1, generateChecksum v⟩ :: sortBackupsDesc olds).take
          (effBackupCount cl bcfg)), none, none⟩
    ∧ (recoverCookie 2 cl now2 name
        (set 2 cl now1 name (StoredValue.str v) ⟨none, none⟩ store).2).1 =
        ⟨true, recoveredMsg name, some v⟩
    ∧ (recoverCookie 2 cl now2 name
        (set 2 cl now1 name (StoredValue.str v) ⟨none, none⟩ store).2).2 name =
        some ⟨StoredValue.str v, none, none⟩ := by
  have hbne : backupPref cl ++ name ≠ name := length_append_ne _ _ hpne
  have hlen : name.length < (backupPref cl ++ name).length := by
    have h1 : 0 < (backupPref cl).length := str_len_pos _ hpne
    have h2 : (backupPref cl ++ name).length = (backupPref cl).length + name.length := by
      simp [String.length_append]
    omega
  have hsorted : sortBackupsDesc (olds ++ [⟨v, now1, generateChecksum v⟩]) =
      (⟨v, now1, generateChecksum v⟩ : CookieBackup) :: sortBackupsDesc olds :=
    sortBackupsDesc_append_max olds _ hfresh
  have hgneg1 : ¬ (getCookieCategory cl name ≠ CookieCategory.essential ∧
      consentFor (getConsent cl store) (getCookieCategory cl name) = false) := by
    rcases hgate1 with h | h
    · rintro ⟨hne, -⟩
      exact hne h
    · rintro ⟨-, hf⟩
      rw [h] at hf
      cases hf
  have hnot1 : ¬ byteLen (name ++ "=" ++ v) > MAX_COOKIE_SIZE := by omega
  have hkey1 : storePut store name ⟨StoredValue.str v, none, none⟩ (backupPref cl ++ name) =
      store (backupPref cl ++ name) := by
    rw [storePut, if_neg hbne]
  have hset2 : setRec 1 cl now1 (backupPref cl ++ name)
      (StoredValue.backups ((⟨v, now1, generateChecksum v⟩ :: sortBackupsDesc olds).take
        (effBackupCount cl bcfg))) ⟨none, none⟩
      (storePut store name ⟨StoredValue.str v, none, none⟩) =
      (⟨true, setOkMsg (backupPref cl ++ name)⟩,
       storePut (storePut store name ⟨StoredValue.str v, none, none⟩) (backupPref cl ++ name)
         ⟨StoredValue.backups ((⟨v, now1, generateChecksum v⟩ :: sortBackupsDesc olds).take
           (effBackupCount cl bcfg)), none, none⟩) := by
    rw [show (1 : Nat) = 0 + 1 from rfl, setRec_succ,
      if_neg (by rintro ⟨hne, -⟩; exact hne hgate2)]
    exact setCore_plain 0 cl now1 (backupPref cl ++ name) _ _ _ (by exact hsz2) hnorec
  have hred : backupCookie 1 cl now1 name v (storePut store name ⟨StoredValue.str v, none, none⟩) =
      (setRec 1 cl now1 (backupPref cl ++ name)
        (StoredValue.backups ((sortBackupsDesc (olds ++ [⟨v, now1, generateChecksum v⟩])).take
          (effBackupCount cl bcfg))) ⟨none, none⟩
        (storePut store name ⟨StoredValue.str v, none, none⟩)).2 := by
    simp only [backupCookie, hb, hcrit, if_true, hkey1, hist]
  have hmain : set 2 cl now1 name (StoredValue.str v) ⟨none, none⟩ store =
      (⟨true, setOkMsg name⟩,
       storePut (storePut store name ⟨StoredValue.str v, none, none⟩) (backupPref cl ++ name)
         ⟨StoredValue.backups ((⟨v, now1, generateChecksum v⟩ :: sortBackupsDesc olds).take
           (effBackupCount cl bcfg)), none, none⟩) := by
    show setRec 2 cl now1 name (StoredValue.str v) ⟨none, none⟩ store = _
    rw [show (2 : Nat) = 1 + 1 from rfl, setRec_succ, if_neg hgneg1]
    simp only [setCore, serializeStored]
    rw [hred, hsorted, hset2, if_neg hnot1]
  obtain ⟨k, hk⟩ : ∃ k, effBackupCount cl bcfg = k + 1 :=
    ⟨effBackupCount cl bcfg - 1, by omega⟩
  have hrecent : ((⟨v, now1, generateChecksum v⟩ : CookieBackup) :: sortBackupsDesc olds).take
      (effBackupCount cl bcfg) =
      (⟨v, now1, generateChecksum v⟩ : CookieBackup) :: (sortBackupsDesc olds).take k := by
    rw [hk, List.take_succ_cons]
  have hs2 : (set 2 cl now1 name (StoredValue.str v) ⟨none, none⟩ store).2
      (backupPref cl ++ name) =
      some ⟨StoredValue.backups ((⟨v, now1, generateChecksum v⟩ : CookieBackup) ::
        (sortBackupsDesc olds).take k), none, none⟩ := by
    rw [hmain]
    show storePut _ (backupPref cl ++ name) _ (backupPref cl ++ name) = _
    rw [storePut, if_pos rfl, hrecent]
  have hrec := recover_step 2 cl now2 name
    (set 2 cl now1 name (StoredValue.str v) ⟨none, none⟩ store).2 bcfg
    ⟨v, now1, generateChecksum v⟩ ((sortBackupsDesc olds).take k) none none hb hcrit hs2
  rw [if_neg (by rintro ⟨-, hne⟩; exact hne rfl)] at hrec
  have hcons2 : getConsent cl (set 2 cl now1 name (StoredValue.str v) ⟨none, none⟩ store).2 =
      getConsent cl store := by
    rw [hmain]
    show getConsent cl (storePut _ (backupPref cl ++ name) _) = _
    rw [getConsent_storePut_ne cl _ _ _ hck2, getConsent_storePut_ne cl _ _ _ hck1]
  refine ⟨by rw [hmain], by rw [hs2, hrecent], by rw [hrec], ?_⟩
  rw [hrec]
  show (setRec 2 cl now2 name (StoredValue.str v) ⟨none, none⟩
    (set 2 cl now1 name (StoredValue.str v) ⟨none, none⟩ store).2).2 name = _
  generalize hst : (set 2 cl now1 name (StoredValue.str v) ⟨none, none⟩ store).2 = store2
    at hs2 hcons2 ⊢
  rw [show (2 : Nat) = 1 + 1 from rfl, setRec_succ, if_neg (by
    rintro ⟨hne, hf⟩
    rw [hcons2] at hf
    rcases hgate1 with h | h
    · exact hne h
    · rw [h] at hf
      cases hf)]
  have hnotf : ¬ byteLen (name ++ "=" ++ serializeStored (StoredValue.str v)) >
      MAX_COOKIE_SIZE := by
    show ¬ byteLen (name ++ "=" ++ v) > MAX_COOKIE_SIZE
    omega
  simp only [setCore, if_neg hnotf]
  show backupCookie 1 cl now2 name (serializeStored (StoredValue.str v))
    (storePut store2 name ⟨StoredValue.str v, none, none⟩) name = _
  have hkey2 : storePut store2 name ⟨StoredValue.str v, none, none⟩ (backupPref cl ++ name) =
      some ⟨StoredValue.backups ((⟨v, now1, generateChecksum v⟩ : CookieBackup) ::
        (sortBackupsDesc olds).take k), none, none⟩ := by
    rw [storePut, if_neg hbne]
    exact hs2
  simp only [backupCookie, hb, hcrit, if_true, hkey2, readBackupList]
  rw [setRec_frame cl hpne 1 now2 (backupPref cl ++ name) _ _ _ name hlen]
  simp [storePut]

/-- C2 witness: on `clW2` (critical, checksum-validated `s`), setting
`"abc"` at time 100 over an empty store stores the snapshot as the head of
the history under `__backup_s`, and recovery at time 200 returns
`success:true` with `"abc"` and rewrites it as the live value. -/
theorem set_then_recover_roundtrip_witness :
    (set 2 clW2 100 "s" (StoredValue.str "abc") ⟨none, none⟩ emptyStore).1 =
      ⟨true, setOkMsg "s"⟩
    ∧ (set 2 clW2 100 "s" (StoredValue.str "abc") ⟨none, none⟩ emptyStore).2 "__backup_s" =
      some ⟨StoredValue.backups [⟨"abc", 100, generateChecksum "abc"⟩], none, none⟩
    ∧ (recoverCookie 2 clW2 200 "s"
        (set 2 clW2 100 "s" (StoredValue.str "abc") ⟨none, none⟩ emptyStore).2).1 =
      ⟨true, recoveredMsg "s", some "abc"⟩
    ∧ (recoverCookie 2 clW2 200 "s"
        (set 2 clW2 100 "s" (StoredValue.str "abc") ⟨none, none⟩ emptyStore).2).2 "s" =
      some ⟨StoredValue.str "abc", none, none⟩ := by
  have h := set_then_recover_roundtrip clW2 emptyStore "s" "abc" 100 200
    ⟨some ⟨some true, none, some true⟩⟩ (by decide) (by decide) [] (by decide) (by decide)
    (by decide) (Or.inl (by decide)) (by decide) (by decide) (by decide) (by decide)
    (by decide) (by decide) (by decide)
  exact h

/-- C2 counterexample: on `clX` the backup key `__backup_s` is GDPR-tracked
as `analytics` with no consent, so the internal history save of a successful
`set` silently fails, and the subsequent `recoverCookie` does not return the
value just written — it fails with "No backups found" — refuting the claimed
round trip for a backup-critical cookie. -/
theorem roundtrip_fails_when_backup_blocked :
    criticalFor clX "s" = true
    ∧ (set 2 clX 100 "s" (StoredValue.str "abc") ⟨none, none⟩ emptyStore).1 =
        ⟨true, setOkMsg "s"⟩
    ∧ (recoverCookie 2 clX 200 "s"
        (set 2 clX 100 "s" (StoredValue.str "abc") ⟨none, none⟩ emptyStore).2).1 =
        ⟨false, noBackupsMsg "s", none⟩ := by
  refine ⟨by decide, by decide, by decide⟩
